import Mathlib

/-!
Verification of the dealer-reviews reporting core (`dashboard.py`).

The Python source is shallowly embedded: pandas rows become a `DealerRecord`
structure, the module-level `df` becomes an explicit `List DealerRecord`
argument, floats become `ℚ`, and external HTTP services become explicit
function arguments.  Each function keeps its Python name.
-/

namespace Dashboard

/-- One row of the dataframe built at load time (dashboard.py lines 26-38):
Dealer, Rating, Total Reviews, Province, PostalCode, Latitude, Longitude,
ReviewTime (list of unix-second timestamps). -/
structure DealerRecord where
  dealer : String
  rating : ℚ
  totalReviews : ℕ
  province : String
  postalCode : Option String
  latitude : Option ℚ
  longitude : Option ℚ
  reviewTime : List Int
deriving DecidableEq, Repr

/-- Embeds `filter_data` (dashboard.py lines 117-125).  The Python closure
captures the global dataframe `df`; here it is the explicit last argument.
`start_date` and `end_date` are taken (as in the source) but never used.
`ratings` is the slider pair `(ratings[0], ratings[1])`. -/
def filter_data (start_date end_date : Int) (provinces : List String)
    (ratings : ℚ × ℚ) (dealer : String) (df : List DealerRecord) :
    List DealerRecord :=
  let filtered := df.filter (fun r =>
    decide (ratings.1 ≤ r.rating) && decide (r.rating ≤ ratings.2) &&
      provinces.contains r.province)
  if dealer ≠ "All Dealers" then filtered.filter (fun r => r.dealer == dealer)
  else filtered

/-- First dealer of the end-to-end example: province ON, rating 3.5. -/
def dealerON1 : DealerRecord :=
  ⟨"Dealer One", 7 / 2, 10, "ON", none, none, none, []⟩

/-- Second dealer of the end-to-end example: province BC, rating 4.8. -/
def dealerBC : DealerRecord :=
  ⟨"Dealer Two", 24 / 5, 20, "BC", none, none, none, []⟩

/-- Third dealer of the end-to-end example: province ON, rating 2.0. -/
def dealerON2 : DealerRecord :=
  ⟨"Dealer Three", 2, 5, "ON", none, none, none, []⟩

/-- The conjunctive predicate `filter_data` amounts to. -/
def filterPred (provinces : List String) (ratings : ℚ × ℚ) (dealer : String)
    (r : DealerRecord) : Bool :=
  decide (ratings.1 ≤ r.rating) && decide (r.rating ≤ ratings.2) &&
    provinces.contains r.province &&
    (dealer == "All Dealers" || r.dealer == dealer)

/-- The three-way sentiment bucket of the classifier contract. -/
inductive Sentiment where
  | Positive
  | Neutral
  | Negative
deriving DecidableEq, Repr

/-- The sentiment summary dictionary built by `analyze_sentiment`
(dashboard.py line 105): counts for Positive, Neutral, Negative. -/
structure SentimentTally where
  positive : ℕ
  neutral : ℕ
  negative : ℕ
deriving DecidableEq, Repr

/-- One iteration of the `analyze_sentiment` loop (dashboard.py lines
106-113).  The TextBlob polarity scorer is an external dependency, passed
in as the function `polarity`. -/
def sentiment_step (polarity : String → ℚ) (s : SentimentTally)
    (review : String) : SentimentTally :=
  let p := polarity review
  if p > 0.2 then { s with positive := s.positive + 1 }
  else if p < -0.2 then { s with negative := s.negative + 1 }
  else { s with neutral := s.neutral + 1 }

/-- Embeds `analyze_sentiment` (dashboard.py lines 104-114): start from the
all-zero summary and fold the per-review update over the review list. -/
def analyze_sentiment (polarity : String → ℚ) (reviews : List String) :
    SentimentTally :=
  reviews.foldl (sentiment_step polarity) ⟨0, 0, 0⟩

/-- The per-review classification implicit in the `analyze_sentiment`
branch (dashboard.py lines 108-113): which bucket a single review text is
counted into, as a function of its polarity score. -/
def classify (polarity : String → ℚ) (review : String) : Sentiment :=
  let p := polarity review
  if p > 0.2 then .Positive
  else if p < -0.2 then .Negative
  else .Neutral

/-- Embeds the Average Rating metric of `national_overview`
(dashboard.py line 153): `filtered_df['Rating'].mean()`.  pandas returns
the sum divided by the count; on an empty column it yields NaN (a defined
undefined-average value, not an exception), modelled here as `none`. -/
def averageRating (ratings : List ℚ) : Option ℚ :=
  if ratings.length = 0 then none
  else some (ratings.sum / (ratings.length : ℚ))

/-- One iteration of the geocoding enrichment loop (dashboard.py lines
60-64): if the record's Latitude is missing, geocode its postal code and
write both coordinates; otherwise leave the record alone.  The external
geocoder (the cached `geocode_postal_code`) is the argument `geocode`;
the returned Bool records whether a geocoding lookup was performed. -/
def enrich_record (geocode : Option String → Option ℚ × Option ℚ)
    (r : DealerRecord) : DealerRecord × Bool :=
  if r.latitude.isNone then
    let c := geocode r.postalCode
    ({ r with latitude := c.1, longitude := c.2 }, true)
  else (r, false)

/-- The whole enrichment pass (dashboard.py lines 60-64): every record is
visited exactly once, in order. -/
def enrich_loop (geocode : Option String → Option ℚ × Option ℚ)
    (df : List DealerRecord) : List (DealerRecord × Bool) :=
  df.map (enrich_record geocode)

/-- A concrete record whose coordinates are present at load time, used to
instantiate the enrichment frame property. -/
def recWithCoords : DealerRecord :=
  ⟨"Dealer Four", 4, 1, "ON", some "K1A 0B1", some 45, some (-75), []⟩

/-- The `result` object of a Places details response (dashboard.py lines
88-92): rating, user_ratings_total and reviews, each possibly absent. -/
structure PlaceResult where
  rating : Option ℚ
  user_ratings_total : Option ℕ
  reviews : List String
deriving DecidableEq, Repr

/-- A dealer dictionary as consumed by `fetch_live_reviews`: the optional
place_id plus the fields the function may write.  `status` is the
per-record status string added by the function. -/
structure LiveDealer where
  place_id : Option String
  rating : Option ℚ
  totalReviews : Option ℕ
  reviews : List String
  status : Option String
deriving DecidableEq, Repr

/-- One iteration of the `fetch_live_reviews` loop (dashboard.py lines
71-99).  The Places details service is the argument `svc`, returning the
HTTP status code and the (possibly missing or empty) `result` object.
Python's `if not place_id` treats both a missing and an empty place id as
falsy. -/
def fetch_one (svc : String → ℕ × Option PlaceResult) (dealer : LiveDealer) :
    LiveDealer :=
  match dealer.place_id with
  | none => { dealer with status := some "Failed: No Place ID" }
  | some pid =>
    if pid = "" then { dealer with status := some "Failed: No Place ID" }
    else
      let response := svc pid
      if response.1 = 200 then
        match response.2 with
        | some result =>
          { dealer with rating := result.rating,
                        totalReviews := result.user_ratings_total,
                        reviews := result.reviews,
                        status := some "Updated" }
        | none => { dealer with status := some "Failed: No Results" }
      else { dealer with status := some ("Failed: " ++ toString response.1) }

/-- Embeds `fetch_live_reviews` (dashboard.py lines 67-101): every input
dealer is processed once, in order, and appended to the output. -/
def fetch_live_reviews (svc : String → ℕ × Option PlaceResult)
    (dealers : List LiveDealer) : List LiveDealer :=
  dealers.map (fetch_one svc)

/-- The decoded JSON body of a Geocoding API response (dashboard.py lines
51-57): a status string and the result list, of which only the first
result's location (a latitude/longitude pair) is consumed. -/
structure GeoResponse where
  status : String
  results : List (ℚ × ℚ)
deriving DecidableEq, Repr

/-- One entry of the cachetools TTLCache: key, cached value and insertion
time (seconds). -/
structure TTLEntry where
  key : String
  val : Option ℚ × Option ℚ
  time : ℕ
deriving DecidableEq, Repr

/-- The cachetools `TTLCache(maxsize=100, ttl=86400)` of dashboard.py line
41, with entries ordered by insertion time. -/
structure TTLCache where
  maxsize : ℕ
  ttl : ℕ
  entries : List TTLEntry
deriving DecidableEq, Repr

/-- TTLCache lookup at time `now`: an entry is a hit only while younger
than the fixed (non-sliding) ttl. -/
def TTLCache.lookup (c : TTLCache) (now : ℕ) (k : String) :
    Option (Option ℚ × Option ℚ) :=
  (c.entries.find? (fun e => e.key == k && decide (now < e.time + c.ttl))).map
    (fun e => e.val)

/-- TTLCache expiry sweep: drop every entry whose ttl has elapsed. -/
def TTLCache.expire (c : TTLCache) (now : ℕ) : TTLCache :=
  { c with entries := c.entries.filter (fun e => decide (now < e.time + c.ttl)) }

/-- TTLCache insertion at time `now`: cachetools first expires stale
entries, evicts the oldest entry if still full, then appends the new
entry stamped with the current time. -/
def TTLCache.insert (c : TTLCache) (now : ℕ) (k : String)
    (v : Option ℚ × Option ℚ) : TTLCache :=
  let c2 := c.expire now
  let entries :=
    if c2.maxsize ≤ c2.entries.length then c2.entries.drop 1 else c2.entries
  { c2 with entries := entries ++ [⟨k, v, now⟩] }

/-- The module-level cache of dashboard.py line 41: empty at load, maxsize
100, ttl 86400 seconds. -/
def geocode_cache : TTLCache := ⟨100, 86400, []⟩

/-- The body of `geocode_postal_code` (dashboard.py lines 44-57) without
the `@cached` decorator.  The external request is the argument `fetch`;
`Except.error` models a raised requests transport exception, which the
source does not catch.  A response whose status is "OK" with a non-empty
result list yields the first result's coordinates; anything else yields
`(None, None)`. -/
def geocode_uncached (fetch : String → Except String GeoResponse)
    (postal_code : String) : Except String (Option ℚ × Option ℚ) :=
  match fetch postal_code with
  | Except.error e => Except.error e
  | Except.ok response =>
    if response.status = "OK" then
      match response.results with
      | location :: _ => Except.ok (some location.1, some location.2)
      | [] => Except.ok (none, none)
    else Except.ok (none, none)

/-- Embeds `@cached(cache) geocode_postal_code` (dashboard.py lines 41-57):
on a live cache hit the memoized value is returned with no external call;
on a miss the body runs once and its returned value — success or the
`(None, None)` failure sentinel alike — is inserted into the cache.  A
raised transport exception propagates and, as with cachetools, is not
cached.  The Bool reports whether the external call was performed. -/
def geocode_postal_code (fetch : String → Except String GeoResponse)
    (now : ℕ) (c : TTLCache) (postal_code : String) :
    Except String ((Option ℚ × Option ℚ) × TTLCache × Bool) :=
  match c.lookup now postal_code with
  | some v => Except.ok (v, c, false)
  | none =>
    match geocode_uncached fetch postal_code with
    | Except.error e => Except.error e
    | Except.ok v => Except.ok (v, c.insert now postal_code v, true)

/-- An external geocoder whose transport always fails (requests raises). -/
def failFetch : String → Except String GeoResponse :=
  fun _ => Except.error "ConnectionError"

/-- An external geocoder that always answers ZERO_RESULTS with an empty
result list. -/
def fetchZeroResults : String → Except String GeoResponse :=
  fun _ => Except.ok ⟨"ZERO_RESULTS", []⟩

/-- Calendar year and month of a unix timestamp in seconds (UTC), as
computed by `pd.to_datetime(..., unit="s").dt.to_period("M")`
(dashboard.py lines 193-194): floor-divide to days since the epoch, then
apply the standard proleptic-Gregorian civil-from-days conversion. -/
def toYearMonth (t : Int) : Int × Int :=
  let z := Int.fdiv t 86400 + 719468
  let era := (if 0 ≤ z then z else z - 146096) / 146097
  let doe := z - era * 146097
  let yoe := (doe - doe / 1460 + doe / 36524 - doe / 146096) / 365
  let y := yoe + era * 400
  let doy := doe - (365 * yoe + yoe / 4 - yoe / 100)
  let mp := (5 * doy + 2) / 153
  let m := mp + (if mp < 10 then 3 else -9)
  (if m ≤ 2 then y + 1 else y, m)

/-- The flattened `review_times` list of `review_trends` (dashboard.py
lines 186-189): all records' review timestamps, in order.  (The source's
`if review_list` guard only skips empty lists, which contribute nothing
to `extend` anyway.) -/
def review_times_of (filtered : List DealerRecord) : List Int :=
  (filtered.map (fun r => r.reviewTime)).flatten

/-- The `review_dates` of `review_trends` converted to month periods
(dashboard.py lines 193-194): each timestamp's (year, month) bucket. -/
def review_dates_of (filtered : List DealerRecord) : List (Int × Int) :=
  (review_times_of filtered).map toYearMonth

/-- Chronological (non-strict) order on (year, month) buckets: the order
`sort_index()` sorts by. -/
def ymr (a b : Int × Int) : Prop :=
  a.1 < b.1 ∨ (a.1 = b.1 ∧ a.2 ≤ b.2)

instance : DecidableRel ymr :=
  fun a b => inferInstanceAs (Decidable (a.1 < b.1 ∨ (a.1 = b.1 ∧ a.2 ≤ b.2)))

instance : IsTotal (Int × Int) ymr where
  total := by
    intro a b
    obtain ⟨a1, a2⟩ := a
    obtain ⟨b1, b2⟩ := b
    unfold ymr
    simp only []
    omega

instance : IsTrans (Int × Int) ymr where
  trans := by
    intro a b c hab hbc
    obtain ⟨a1, a2⟩ := a
    obtain ⟨b1, b2⟩ := b
    obtain ⟨c1, c2⟩ := c
    unfold ymr at hab hbc ⊢
    simp only [] at hab hbc ⊢
    omega

/-- Strictly-chronological order on (year, month) buckets. -/
def ymlt (a b : Int × Int) : Prop :=
  a.1 < b.1 ∨ (a.1 = b.1 ∧ a.2 < b.2)

/-- Embeds the trend computation of `review_trends` (dashboard.py lines
183-195): flatten all review timestamps, bucket each by (year, month),
and produce `value_counts().sort_index()` — the count of each distinct
bucket, listed in chronological bucket order. -/
def review_trends (filtered : List DealerRecord) : List ((Int × Int) × ℕ) :=
  let review_dates := review_dates_of filtered
  (review_dates.dedup.insertionSort ymr).map
    (fun k => (k, review_dates.count k))

/-- First record of the trend example: reviews on 2022-01-15 and
2022-01-20 (unix seconds 1642204800 and 1642636800). -/
def trendRec1 : DealerRecord :=
  ⟨"Dealer A", 4, 2, "ON", none, none, none, [1642204800, 1642636800]⟩

/-- Second record of the trend example: one review on 2022-02-01 (unix
seconds 1643673600). -/
def trendRec2 : DealerRecord :=
  ⟨"Dealer B", 5, 1, "ON", none, none, none, [1643673600]⟩

theorem filter_data_eq_filter (sd ed : Int) (provinces : List String)
    (ratings : ℚ × ℚ) (dealer : String) (df : List DealerRecord) :
    filter_data sd ed provinces ratings dealer df =
      df.filter (filterPred provinces ratings dealer) := by
  unfold filter_data filterPred
  by_cases h : dealer = "All Dealers"
  · simp only [h, ne_eq, not_true_eq_false, if_false, beq_self_eq_true,
      Bool.true_or, Bool.and_true]
  · simp only [ne_eq, h, not_false_eq_true, if_true, List.filter_filter]
    congr 1
    funext r
    have hb : (dealer == "All Dealers") = false := by
      simpa using h
    by_cases hr : r.dealer = dealer
    · simp [hr, hb]
    · have : (r.dealer == dealer) = false := by simpa using hr
      simp [this, hb]

/-- C1: filter_data returns exactly the records whose rating lies in
[low, high] inclusive, whose province is in the selected provinces, and —
when the dealer is not the "All Dealers" sentinel — whose name equals the
selected dealer exactly; the conditions are conjunctive.  For the three
dealers with provinces {ON, BC, ON} and ratings {3.5, 4.8, 2.0}, filtering
for province ON and rating range [3.0, 5.0] returns exactly the first. -/
theorem filter_data_spec :
    (∀ (sd ed : Int) (provinces : List String) (lo hi : ℚ) (dealer : String)
      (df : List DealerRecord) (r : DealerRecord),
      r ∈ filter_data sd ed provinces (lo, hi) dealer df ↔
        r ∈ df ∧ lo ≤ r.rating ∧ r.rating ≤ hi ∧ r.province ∈ provinces ∧
          (dealer ≠ "All Dealers" → r.dealer = dealer)) ∧
    filter_data 0 0 ["ON"] (3, 5) "All Dealers" [dealerON1, dealerBC, dealerON2] =
      [dealerON1] := by
  constructor
  · intro sd ed provinces lo hi dealer df r
    rw [filter_data_eq_filter, List.mem_filter]
    unfold filterPred
    simp only [Bool.and_eq_true, decide_eq_true_eq, Bool.or_eq_true,
      beq_iff_eq, List.elem_eq_mem, and_assoc]
    constructor
    · rintro ⟨h1, h2, h3, h4, h5⟩
      exact ⟨h1, h2, h3, h4, fun hne => h5.resolve_left hne⟩
    · rintro ⟨h1, h2, h3, h4, h5⟩
      refine ⟨h1, h2, h3, h4, ?_⟩
      by_cases hd : dealer = "All Dealers"
      · exact Or.inl hd
      · exact Or.inr (h5 hd)
  · norm_num [filter_data, List.filter_cons, dealerON1, dealerBC, dealerON2]
    decide

/-- Witness for C1: the membership characterisation instantiated at the
first example dealer. -/
theorem filter_data_spec_witness :
    dealerON1 ∈ filter_data 0 0 ["ON"] ((3 : ℚ), 5) "All Dealers"
        [dealerON1, dealerBC, dealerON2] ↔
      dealerON1 ∈ [dealerON1, dealerBC, dealerON2] ∧ (3 : ℚ) ≤ dealerON1.rating ∧
        dealerON1.rating ≤ 5 ∧ dealerON1.province ∈ ["ON"] ∧
        ("All Dealers" ≠ "All Dealers" → dealerON1.dealer = "All Dealers") :=
  filter_data_spec.1 0 0 ["ON"] 3 5 "All Dealers" [dealerON1, dealerBC, dealerON2]
    dealerON1

/-- C2: the date-range criteria are inert — two filter_data invocations that
agree on provinces, rating range and dealer but differ arbitrarily in start
and end date return identical results. -/
theorem filter_data_dates_inert :
    ∀ (s1 e1 s2 e2 : Int) (provinces : List String) (ratings : ℚ × ℚ)
      (dealer : String) (df : List DealerRecord),
      filter_data s1 e1 provinces ratings dealer df =
        filter_data s2 e2 provinces ratings dealer df :=
  fun _ _ _ _ _ _ _ _ => rfl

/-- C7: filter_data is idempotent — filtering an already-filtered sequence
with the same criteria returns that sequence unchanged. -/
theorem filter_data_idempotent :
    ∀ (sd ed : Int) (provinces : List String) (ratings : ℚ × ℚ)
      (dealer : String) (df : List DealerRecord),
      filter_data sd ed provinces ratings dealer
          (filter_data sd ed provinces ratings dealer df) =
        filter_data sd ed provinces ratings dealer df := by
  intro sd ed provinces ratings dealer df
  rw [filter_data_eq_filter, filter_data_eq_filter, List.filter_filter]
  congr 1
  funext r
  exact Bool.and_self _

/-- C3: a review classifies as Positive exactly when its polarity score is
strictly greater than 0.2, Negative exactly when strictly less than -0.2,
and Neutral otherwise; polarity exactly 0.2 or exactly -0.2 is Neutral. -/
theorem classify_spec :
    (∀ (polarity : String → ℚ) (review : String),
      (classify polarity review = Sentiment.Positive ↔ (0.2 : ℚ) < polarity review) ∧
      (classify polarity review = Sentiment.Negative ↔ polarity review < -(0.2 : ℚ)) ∧
      (classify polarity review = Sentiment.Neutral ↔
        -(0.2 : ℚ) ≤ polarity review ∧ polarity review ≤ (0.2 : ℚ))) ∧
    classify (fun _ => (0.2 : ℚ)) "" = Sentiment.Neutral ∧
    classify (fun _ => -(0.2 : ℚ)) "" = Sentiment.Neutral := by
  refine ⟨?_, by norm_num [classify], by norm_num [classify]⟩
  intro polarity review
  simp only [classify]
  by_cases h1 : polarity review > (0.2 : ℚ)
  · rw [if_pos h1]
    exact ⟨⟨fun _ => h1, fun _ => rfl⟩,
      ⟨(fun h => nomatch h), fun h => by linarith⟩,
      ⟨(fun h => nomatch h), fun h => absurd h1 (not_lt.mpr h.2)⟩⟩
  · rw [if_neg h1]
    by_cases h2 : polarity review < -(0.2 : ℚ)
    · rw [if_pos h2]
      exact ⟨⟨(fun h => nomatch h), fun h => absurd h h1⟩,
        ⟨fun _ => h2, fun _ => rfl⟩,
        ⟨(fun h => nomatch h), fun h => absurd h2 (not_lt.mpr h.1)⟩⟩
    · rw [if_neg h2]
      push_neg at h1 h2
      exact ⟨⟨(fun h => nomatch h), fun h => absurd h (not_lt.mpr h1)⟩,
        ⟨(fun h => nomatch h), fun h => absurd h (not_lt.mpr h2)⟩,
        ⟨fun _ => ⟨h2, h1⟩, fun _ => rfl⟩⟩

theorem analyze_sentiment_foldl (polarity : String → ℚ) :
    ∀ (reviews : List String) (s : SentimentTally),
      (reviews.foldl (sentiment_step polarity) s).positive +
        (reviews.foldl (sentiment_step polarity) s).neutral +
        (reviews.foldl (sentiment_step polarity) s).negative =
      s.positive + s.neutral + s.negative + reviews.length := by
  intro reviews
  induction reviews with
  | nil => intro s; simp
  | cons r rest ih =>
    intro s
    simp only [List.foldl_cons, List.length_cons]
    rw [ih]
    simp only [sentiment_step]
    split_ifs <;> simp <;> omega

/-- C10: every review text lands in exactly one bucket, so the Positive,
Neutral and Negative counts of analyze_sentiment sum to the number of
reviews; the empty review list yields the all-zero tally. -/
theorem analyze_sentiment_partition :
    (∀ (polarity : String → ℚ) (reviews : List String),
      (analyze_sentiment polarity reviews).positive +
        (analyze_sentiment polarity reviews).neutral +
        (analyze_sentiment polarity reviews).negative = reviews.length) ∧
    (∀ polarity : String → ℚ,
      analyze_sentiment polarity [] = ⟨0, 0, 0⟩) := by
  constructor
  · intro polarity reviews
    unfold analyze_sentiment
    simpa using analyze_sentiment_foldl polarity reviews ⟨0, 0, 0⟩
  · intro polarity
    rfl

/-- C5: the Average Rating metric is the arithmetic mean on non-empty
input — in particular 4.0 for ratings [3.0, 4.0, 5.0] — and the defined
undefined-average value (NaN, modelled as none) on empty input, not a
crash. -/
theorem averageRating_spec :
    (∀ ratings : List ℚ, ratings ≠ [] →
      averageRating ratings = some (ratings.sum / (ratings.length : ℚ))) ∧
    averageRating [3, 4, 5] = some 4 ∧
    averageRating ([] : List ℚ) = none := by
  refine ⟨?_, ?_, rfl⟩
  · intro ratings h
    unfold averageRating
    rw [if_neg (by simpa using h)]
  · norm_num [averageRating]

/-- Witness for C5: the mean clause instantiated at the concrete list. -/
theorem averageRating_spec_witness :
    averageRating [3, 4, 5] =
      some (([3, 4, 5] : List ℚ).sum / ((([3, 4, 5] : List ℚ).length : ℕ) : ℚ)) :=
  averageRating_spec.1 [3, 4, 5] (by simp)

/-- C8: a record whose coordinates are present at load time is left
unchanged by the enrichment step and triggers no geocoding lookup; a
record whose latitude is absent has its coordinates written (once) from
the geocoder; and the enrichment pass visits each record exactly once,
independently. -/
theorem enrich_spec :
    (∀ (geocode : Option String → Option ℚ × Option ℚ) (r : DealerRecord),
      r.latitude.isSome → enrich_record geocode r = (r, false)) ∧
    (∀ (geocode : Option String → Option ℚ × Option ℚ) (r : DealerRecord),
      r.latitude = none →
        enrich_record geocode r =
          ({ r with latitude := (geocode r.postalCode).1,
                    longitude := (geocode r.postalCode).2 }, true)) ∧
    (∀ (geocode : Option String → Option ℚ × Option ℚ) (df : List DealerRecord),
      enrich_loop geocode df = df.map (enrich_record geocode)) := by
  refine ⟨?_, ?_, fun _ _ => rfl⟩
  · intro geocode r h
    obtain ⟨v, hv⟩ := Option.isSome_iff_exists.mp h
    simp [enrich_record, hv]
  · intro geocode r h
    simp [enrich_record, h]

/-- Witness for C8: the frame property at a concrete record with
coordinates present. -/
theorem enrich_spec_witness :
    enrich_record (fun _ => ((none : Option ℚ), (none : Option ℚ))) recWithCoords =
      (recWithCoords, false) :=
  enrich_spec.1 (fun _ => (none, none)) recWithCoords rfl

theorem forall2_map_of_forall {α β : Type} {R : α → β → Prop} (f : α → β) :
    ∀ l : List α, (∀ a ∈ l, R a (f a)) → List.Forall₂ R l (l.map f)
  | [], _ => List.Forall₂.nil
  | a :: l, h =>
    List.Forall₂.cons (h a (by simp))
      (forall2_map_of_forall f l (fun x hx => h x (by simp [hx])))

theorem fetch_one_cases (svc : String → ℕ × Option PlaceResult)
    (d : LiveDealer) :
    (fetch_one svc d).status.isSome = true ∧
    (d.place_id = none ∨ d.place_id = some "" →
      (fetch_one svc d).status = some "Failed: No Place ID") ∧
    (∀ pid, d.place_id = some pid → pid ≠ "" → (svc pid).1 ≠ 200 →
      (fetch_one svc d).status = some ("Failed: " ++ toString (svc pid).1)) := by
  obtain ⟨pid0, rat, tot, revs, st⟩ := d
  rcases pid0 with _ | pid
  · refine ⟨rfl, fun _ => rfl, ?_⟩
    intro pid h
    cases h
  · by_cases hp : pid = ""
    · subst hp
      refine ⟨rfl, fun _ => rfl, ?_⟩
      intro pid2 h h2
      cases h
      exact absurd rfl h2
    · by_cases hc : (svc pid).1 = 200
      · refine ⟨?_, ?_, ?_⟩
        · simp only [fetch_one, hp, if_false, if_pos hc]
          rcases (svc pid).2 with _ | res <;> rfl
        · rintro (h | h) <;> cases h
          exact absurd rfl hp
        · intro pid2 h h2 h3
          cases h
          exact absurd hc h3
      · refine ⟨?_, ?_, ?_⟩
        · simp [fetch_one, hp, if_neg hc]
        · rintro (h | h) <;> cases h
          exact absurd rfl hp
        · intro pid2 h h2 h3
          cases h
          simp [fetch_one, hp, if_neg hc]

/-- C9: fetch_live_reviews returns one result per input dealer, each
carrying a status string; a missing (or empty) place identifier and any
non-200 response are reported in that record's status string rather than
raised. -/
theorem fetch_live_reviews_spec :
    ∀ (svc : String → ℕ × Option PlaceResult) (dealers : List LiveDealer),
      (fetch_live_reviews svc dealers).length = dealers.length ∧
      List.Forall₂ (fun inp out =>
          out.status.isSome = true ∧
          (inp.place_id = none ∨ inp.place_id = some "" →
            out.status = some "Failed: No Place ID") ∧
          (∀ pid, inp.place_id = some pid → pid ≠ "" → (svc pid).1 ≠ 200 →
            out.status = some ("Failed: " ++ toString (svc pid).1)))
        dealers (fetch_live_reviews svc dealers) := by
  intro svc dealers
  refine ⟨by simp [fetch_live_reviews], ?_⟩
  exact forall2_map_of_forall (fetch_one svc) dealers
    (fun d _ => fetch_one_cases svc d)

/-- Witness for C9: the per-record status property at a concrete service
and a concrete dealer list (one dealer without a place id, one whose
lookup answers 404). -/
theorem fetch_live_reviews_spec_witness :
    (fetch_live_reviews (fun _ => (404, none))
        [⟨none, none, none, [], none⟩, ⟨some "pl1", none, none, [], none⟩]).length =
      ([⟨none, none, none, [], none⟩, ⟨some "pl1", none, none, [], none⟩] :
        List LiveDealer).length ∧
    List.Forall₂ (fun (inp out : LiveDealer) =>
        out.status.isSome = true ∧
        (inp.place_id = none ∨ inp.place_id = some "" →
          out.status = some "Failed: No Place ID") ∧
        (∀ pid, inp.place_id = some pid → pid ≠ "" →
          ((fun (_ : String) => ((404 : ℕ), (none : Option PlaceResult))) pid).1 ≠ 200 →
          out.status = some ("Failed: " ++
            toString ((fun (_ : String) => ((404 : ℕ), (none : Option PlaceResult))) pid).1)))
      ([⟨none, none, none, [], none⟩, ⟨some "pl1", none, none, [], none⟩] :
        List LiveDealer)
      (fetch_live_reviews (fun _ => (404, none))
        [⟨none, none, none, [], none⟩, ⟨some "pl1", none, none, [], none⟩]) :=
  fetch_live_reviews_spec (fun _ => (404, none))
    [⟨none, none, none, [], none⟩, ⟨some "pl1", none, none, [], none⟩]

/-- Counterexample to C4 as stated: when the external lookup fails with a
transport error, geocode_postal_code does not return the NotFound sentinel —
the exception propagates (the source wraps no try/except around
`requests.get(...).json()`). -/
theorem geocode_transport_error_raises :
    geocode_postal_code failFetch 0 geocode_cache "K1A 0B1" =
      Except.error "ConnectionError" := rfl

/-- C4 (amended): for a postal code whose external lookup answers with a
non-OK status or an empty result set, geocode_postal_code returns the
NotFound sentinel (null coordinates) without raising, caches that failure
under the same key with the same 86400-second ttl as a success, and a
second resolve of the same key within the ttl performs no new external
call; a transport error instead propagates as an exception and caches
nothing. -/
theorem geocode_failure_cached :
    (∀ (fetch : String → Except String GeoResponse) (key : String)
      (resp : GeoResponse) (now now2 : ℕ),
      fetch key = Except.ok resp →
      (resp.status ≠ "OK" ∨ resp.results = []) →
      now2 < now + 86400 →
      geocode_postal_code fetch now geocode_cache key =
        Except.ok ((none, none), geocode_cache.insert now key (none, none), true) ∧
      geocode_postal_code fetch now2
          (geocode_cache.insert now key (none, none)) key =
        Except.ok ((none, none), geocode_cache.insert now key (none, none), false)) ∧
    (∀ (fetch : String → Except String GeoResponse) (key e : String)
      (now : ℕ) (c : TTLCache),
      fetch key = Except.error e → c.lookup now key = none →
      geocode_postal_code fetch now c key = Except.error e) := by
  constructor
  · intro fetch key resp now now2 hfetch hfail httl
    have hun : geocode_uncached fetch key = Except.ok (none, none) := by
      unfold geocode_uncached
      rw [hfetch]
      rcases hfail with h | h
      · simp only [if_neg h]
      · by_cases hs : resp.status = "OK"
        · simp only [if_pos hs, h]
        · simp only [if_neg hs]
    constructor
    · unfold geocode_postal_code
      rw [hun]
      rfl
    · unfold geocode_postal_code
      have hd : decide (now2 < now + 86400) = true := decide_eq_true httl
      simp [TTLCache.lookup, TTLCache.insert, TTLCache.expire,
        geocode_cache, hd]
  · intro fetch key e now c hfetch hmiss
    unfold geocode_postal_code
    rw [hmiss]
    unfold geocode_uncached
    rw [hfetch]

/-- Witness for C4: the failure-caching clause with a concrete
ZERO_RESULTS geocoder, key, and a second resolve 3600 seconds later. -/
theorem geocode_failure_cached_witness :
    geocode_postal_code fetchZeroResults 0 geocode_cache "K1A 0B1" =
      Except.ok ((none, none), geocode_cache.insert 0 "K1A 0B1" (none, none), true) ∧
    geocode_postal_code fetchZeroResults 3600
        (geocode_cache.insert 0 "K1A 0B1" (none, none)) "K1A 0B1" =
      Except.ok ((none, none), geocode_cache.insert 0 "K1A 0B1" (none, none), false) :=
  geocode_failure_cached.1 fetchZeroResults "K1A 0B1" ⟨"ZERO_RESULTS", []⟩ 0 3600
    rfl (Or.inr rfl) (by decide)

theorem ymr_ne_imp_ymlt {a b : Int × Int} (h : ymr a b ∧ a ≠ b) : ymlt a b := by
  obtain ⟨hr, hne⟩ := h
  rcases hr with h1 | ⟨heq, hle⟩
  · exact Or.inl h1
  · refine Or.inr ⟨heq, lt_of_le_of_ne hle fun h2 => hne (Prod.ext heq h2)⟩

/-- C6: review_trends flattens every record's review timestamps, buckets
each by calendar (year, month), and returns the per-bucket counts in
strictly chronological order; buckets are exactly those occurring in the
data, each with its occurrence count.  For timestamps on 2022-01-15,
2022-01-20 and 2022-02-01 it yields [(2022-01, 2), (2022-02, 1)]. -/
theorem review_trends_spec :
    (∀ filtered : List DealerRecord,
      List.Pairwise (fun p q => ymlt p.1 q.1) (review_trends filtered)) ∧
    (∀ (filtered : List DealerRecord) (p : (Int × Int) × ℕ),
      p ∈ review_trends filtered →
        p.1 ∈ review_dates_of filtered ∧
        p.2 = (review_dates_of filtered).count p.1) ∧
    (∀ (filtered : List DealerRecord) (ym : Int × Int),
      ym ∈ review_dates_of filtered →
        (ym, (review_dates_of filtered).count ym) ∈ review_trends filtered) ∧
    review_trends [trendRec1, trendRec2] = [((2022, 1), 2), ((2022, 2), 1)] := by
  refine ⟨?_, ?_, ?_, by decide⟩
  · intro filtered
    simp only [review_trends]
    rw [List.pairwise_map]
    have hs : List.Pairwise ymr
        ((review_dates_of filtered).dedup.insertionSort ymr) :=
      List.sorted_insertionSort ymr _
    have hn : ((review_dates_of filtered).dedup.insertionSort ymr).Nodup :=
      (List.perm_insertionSort ymr _).nodup_iff.mpr
        (review_dates_of filtered).nodup_dedup
    exact (hs.and hn).imp ymr_ne_imp_ymlt
  · intro filtered p hp
    simp only [review_trends] at hp
    obtain ⟨k, hk, rfl⟩ := List.mem_map.mp hp
    have hkd : k ∈ (review_dates_of filtered).dedup :=
      (List.perm_insertionSort ymr _).mem_iff.mp hk
    exact ⟨List.mem_dedup.mp hkd, rfl⟩
  · intro filtered ym hym
    simp only [review_trends]
    exact List.mem_map_of_mem _
      ((List.perm_insertionSort ymr _).mem_iff.mpr (List.mem_dedup.mpr hym))

/-- Witness for C6: the bucket/count clause instantiated at the concrete
two-record example and its first output pair. -/
theorem review_trends_spec_witness :
    ((((2022 : Int), (1 : Int)), (2 : ℕ)) : (Int × Int) × ℕ).1 ∈
        review_dates_of [trendRec1, trendRec2] ∧
    ((((2022 : Int), (1 : Int)), (2 : ℕ)) : (Int × Int) × ℕ).2 =
      (review_dates_of [trendRec1, trendRec2]).count
        ((((2022 : Int), (1 : Int)), (2 : ℕ)) : (Int × Int) × ℕ).1 :=
  review_trends_spec.2.1 [trendRec1, trendRec2] (((2022, 1)), 2) (by decide)

end Dashboard
